import Mathlib

/-!
home-assistant-ci-automation: the webhook bridge of `main.go`.

A shallow embedding of `src/main.go` and the properties of its `POST /webhook`
handler.

Modelling conventions.

* Go strings are Lean `String`s (valid Unicode text); `==` on strings is `=`.
* The handler writes a response and talks to the outside world.  A run of a
  function is its result together with the list of `Event`s it caused, in order:
  log lines, entries into `hassIsOn` / `hassTurnOn`, and HTTP requests handed to
  `http.DefaultClient.Do`.
* What the standard library and the network answer is not decided by `main.go`.
  It is a parameter, `World`: whether `http.NewRequest` accepts a URL, what
  `Do` and `io.ReadAll` return, and what `json.Unmarshal` decodes from given
  bytes.  Each theorem quantifies over every `World`.
* `json.Marshal` of a one-entry `map[string]string` is modelled concretely
  (`jsonMarshal`), following `encoding/json` of Go 1.22, the first release that
  accepts the `"POST /webhook"` pattern.
* `log.Printf` events carry the formatted message, without the logger's
  timestamp prefix.
-/

namespace HassCi

/-! ## Data model -/

/-- Line 14: `emptyCommitHash`. -/
def emptyCommitHash : String := "0000000000000000000000000000000000000000"

/-- Lines 20-22: the anonymous struct of the field `Repository`. -/
structure webhookPayloadRepository where
  FullName : String
deriving DecidableEq, Repr

/-- Lines 16-23: `webhookPayload`. -/
structure webhookPayload where
  Ref : String
  Before : String
  After : String
  Repository : webhookPayloadRepository
deriving DecidableEq, Repr

/-- Lines 128-131: `hassResultType`. -/
structure hassResultType where
  EntityId : String
  State : String
deriving DecidableEq, Repr

/-- Lines 25-27: the package variables set by `main` before the server starts. -/
structure Config where
  hassApiKey : String
  hassApiUrl : String
  hassEntityId : String
deriving DecidableEq, Repr

/-- An outgoing request as built by `http.NewRequest` and `req.Header.Add`. -/
structure HttpRequest where
  method : String
  url : String
  headers : List (String × String)
  body : Option String
deriving DecidableEq, Repr

/-- A response of `http.DefaultClient.Do`: what `io.ReadAll(resp.Body)` yields. -/
structure HttpResponse where
  readAll : Except String String

/-- The answers of the standard library and of the network. -/
structure World where
  /-- The call `json.Unmarshal(body, &payload)` of line 54. -/
  unmarshalPayload : String → Except String webhookPayload
  /-- The call `http.NewRequest(method, url, body)`: accepted, or an error text. -/
  newRequest : String → String → Except String Unit
  /-- The call `http.DefaultClient.Do(req)`. -/
  clientDo : HttpRequest → Except String HttpResponse
  /-- The call `json.Unmarshal(body, &result)` of line 155. -/
  unmarshalResult : String → Except String hassResultType
  /-- The call `json.Unmarshal(body, &result)` of line 195. -/
  unmarshalResults : String → Except String (List hassResultType)

/-- What a run does besides returning. -/
inductive Event where
  | log (msg : String)
  | isOnCall (entityId : String)
  | turnOnCall (entityId : String)
  | httpDo (req : HttpRequest)
deriving DecidableEq, Repr

/-- What the handler wrote to the `http.ResponseWriter`. -/
structure Response where
  status : Nat
  headers : List (String × String)
  body : String
deriving DecidableEq, Repr

/-! ## Library models -/

/-- The function `strings.CutPrefix`: the rest after the prefix and `true`, or the
string itself and `false`. -/
def cutPrefix (s pre : String) : String × Bool :=
  if pre.data.isPrefixOf s.data then (⟨s.data.drop pre.data.length⟩, true) else (s, false)

/-- A hexadecimal digit, lower case. -/
def hexDigit (n : Nat) : Char :=
  ['0', '1', '2', '3', '4', '5', '6', '7', '8', '9', 'a', 'b', 'c', 'd', 'e', 'f'].getD n '0'

/-- One character of a JSON string as `encoding/json` writes it with HTML escaping
on (the default of `json.Marshal`). -/
def jsonEscapeChar (c : Char) : List Char :=
  if c = '"' then ['\\', '"']
  else if c = '\\' then ['\\', '\\']
  else if c = '\x08' then ['\\', 'b']
  else if c = '\x0c' then ['\\', 'f']
  else if c = '\n' then ['\\', 'n']
  else if c = '\r' then ['\\', 'r']
  else if c = '\t' then ['\\', 't']
  else if c.toNat < 32 ∨ c = '<' ∨ c = '>' ∨ c = '&' then
    ['\\', 'u', '0', '0', hexDigit (c.toNat / 16), hexDigit (c.toNat % 16)]
  else if c.toNat = 0x2028 then ['\\', 'u', '2', '0', '2', '8']
  else if c.toNat = 0x2029 then ['\\', 'u', '2', '0', '2', '9']
  else [c]

/-- A JSON string literal. -/
def jsonString (s : String) : String :=
  ⟨'"' :: (s.data.flatMap jsonEscapeChar ++ ['"'])⟩

/-- The call `json.Marshal(map[string]string{key: value})`: the bytes and no error. -/
def jsonMarshal (key value : String) : Except String String :=
  .ok ("\x7b" ++ jsonString key ++ ":" ++ jsonString value ++ "\x7d")

/-- The verb `%+v` applied to a `webhookPayload`. -/
def fmtPayload (p : webhookPayload) : String :=
  "\x7bRef:" ++ p.Ref ++ " Before:" ++ p.Before ++ " After:" ++ p.After ++
    " Repository:\x7bFullName:" ++ p.Repository.FullName ++ "\x7d\x7d"

/-! ## The program -/

/-- The call `w.WriteHeader(status)` followed by `return`: no header, no body. -/
def writeHeader (status : Nat) : Response :=
  { status := status, headers := [], body := "" }

/-- Lines 115-126: `jsonError`. -/
def jsonError (msg : String) (status : Nat) : Response × List Event :=
  let (status, body) :=
    match jsonMarshal "message" msg with
    | .ok body => (status, body)
    | .error _ => (500, "")
  ({ status := status, headers := [("Content-Type", "application/json")], body := body },
   [Event.log ("Response " ++ toString status ++ ": " ++ body)])

/-- Lines 134-158 of `hassIsOn`: the decoded `result`, or the error returned before
the checks on it. -/
def hassIsOnResult (cfg : Config) (w : World) (entityId : String) :
    Except String hassResultType × List Event :=
  let url := cfg.hassApiUrl ++ "/api/states/" ++ entityId
  match w.newRequest "GET" url with
  | .error err => (.error err, [])
  | .ok () =>
    let req : HttpRequest :=
      { method := "GET", url := url,
        headers := [("Authorization", "Bearer " ++ cfg.hassApiKey),
                    ("Accept", "application/json"),
                    ("User-Agent", "hass-ci/0.1")],
        body := none }
    match w.clientDo req with
    | .error err => (.error err, [Event.httpDo req])
    | .ok resp =>
      match resp.readAll with
      | .error err => (.error err, [Event.httpDo req])
      | .ok body =>
        match w.unmarshalResult body with
        | .error err => (.error err, [Event.httpDo req])
        | .ok result => (.ok result, [Event.httpDo req])

/-- Lines 133-165: `hassIsOn`. -/
def hassIsOn (cfg : Config) (w : World) (entityId : String) :
    Except String Bool × List Event :=
  let (r, evs) := hassIsOnResult cfg w entityId
  match r with
  | .error err => (.error err, Event.isOnCall entityId :: evs)
  | .ok result =>
    if result.EntityId ≠ entityId then
      (.error ("wrong device ID. Expected " ++ entityId ++ ", got " ++ result.EntityId),
       Event.isOnCall entityId :: evs)
    else
      (.ok (decide (result.State = "on")), Event.isOnCall entityId :: evs)

/-- Lines 168-198 of `hassTurnOn`: the decoded `result`, or the error returned
before the checks on it. -/
def hassTurnOnResult (cfg : Config) (w : World) (entityId : String) :
    Except String (List hassResultType) × List Event :=
  match jsonMarshal "entity_id" entityId with
  | .error err => (.error err, [])
  | .ok reqBody =>
    let url := cfg.hassApiUrl ++ "/api/services/switch/turn_on"
    match w.newRequest "POST" url with
    | .error err => (.error err, [])
    | .ok () =>
      let req : HttpRequest :=
        { method := "POST", url := url,
          headers := [("Authorization", "Bearer " ++ cfg.hassApiKey),
                      ("Accept", "application/json"),
                      ("Content-Type", "application/json"),
                      ("User-Agent", "hass-ci/0.1")],
          body := some reqBody }
      match w.clientDo req with
      | .error err => (.error err, [Event.httpDo req])
      | .ok resp =>
        match resp.readAll with
        | .error err => (.error err, [Event.httpDo req])
        | .ok body =>
          match w.unmarshalResults body with
          | .error err => (.error err, [Event.httpDo req])
          | .ok result => (.ok result, [Event.httpDo req])

/-- Lines 200-212 of `hassTurnOn`: the checks on the decoded `result`. -/
def hassTurnOnCheck (entityId : String) (result : List hassResultType) : Except String Unit :=
  if result.length ≠ 1 then
    .error "unexpected result from service"
  else
    match result.head? with
    | none => .error "unexpected result from service"
    | some r0 =>
      if r0.EntityId ≠ entityId then
        .error ("wrong device ID. Expected " ++ entityId ++ ", got " ++ r0.EntityId)
      else if r0.State ≠ "on" then
        .error ("expected result for " ++ entityId ++ ": on, got " ++ r0.State)
      else
        .ok ()

/-- Lines 167-213: `hassTurnOn`. -/
def hassTurnOn (cfg : Config) (w : World) (entityId : String) :
    Except String Unit × List Event :=
  let (r, evs) := hassTurnOnResult cfg w entityId
  match r with
  | .error err => (.error err, Event.turnOnCall entityId :: evs)
  | .ok result => (hassTurnOnCheck entityId result, Event.turnOnCall entityId :: evs)

/-- Lines 46-105: the handler of `POST /webhook`.  The argument `reqBody` is what
`io.ReadAll(r.Body)` returned. -/
def webhookHandler (cfg : Config) (w : World) (reqBody : Except String String) :
    Response × List Event :=
  match reqBody with
  | .error err => jsonError err 400
  | .ok body =>
    match w.unmarshalPayload body with
    | .error err => jsonError err 400
    | .ok payload =>
      if payload.Repository.FullName ≠ "canastra.online/monorepo" then
        (writeHeader 204,
         [Event.log ("Skipping, wrong repo: received " ++ fmtPayload payload ++ "\n")])
      else
        let (version, ok) := cutPrefix payload.Ref "refs/tags/"
        if ok = false then
          (writeHeader 204,
           [Event.log ("Skipping, wrong ref: received " ++ fmtPayload payload ++ "\n")])
        else if payload.Before = emptyCommitHash ∧ payload.After = emptyCommitHash then
          jsonError "Unexpected payload: commit hashes are empty" 400
        else if payload.After = emptyCommitHash then
          (writeHeader 204,
           [Event.log ("Skipping, tag was removed: received " ++ fmtPayload payload)])
        else
          let (isOn, evs₁) := hassIsOn cfg w cfg.hassEntityId
          match isOn with
          | .error err =>
            let (resp, evs) := jsonError err 400
            (resp, evs₁ ++ evs)
          | .ok true =>
            (writeHeader 204,
             evs₁ ++ [Event.log ("Skipping, isOn: received " ++ fmtPayload payload)])
          | .ok false =>
            let (res, evs₂) := hassTurnOn cfg w cfg.hassEntityId
            match res with
            | .error err =>
              let (resp, evs) := jsonError err 400
              (resp, evs₁ ++ evs₂ ++ evs)
            | .ok () =>
              (writeHeader 204,
               evs₁ ++ evs₂ ++
                 [Event.log ("Waking up CI server for " ++ payload.Repository.FullName ++
                    ":" ++ version ++ "\n")])

/-! ## Reading a run -/

/-- The entries into the two home-automation operations, in order. -/
def invocations (evs : List Event) : List Event :=
  evs.filter fun e =>
    match e with
    | .isOnCall _ => true
    | .turnOnCall _ => true
    | _ => false

/-- The HTTP requests sent, in order. -/
def httpRequests (evs : List Event) : List HttpRequest :=
  evs.filterMap fun e =>
    match e with
    | .httpDo req => some req
    | _ => none

/-! ## Concrete runs -/

/-- A configuration as `main` would load it from the environment. -/
def demoConfig : Config :=
  { hassApiKey := "secret", hassApiUrl := "http://hass.local:8123",
    hassEntityId := "switch.ci_server" }

/-- A world where the webhook body decodes as `p`, every request is accepted and
answered, the state query decodes as `q` and the turn-on command as `t`. -/
def demoWorld (p : Except String webhookPayload) (q : Except String hassResultType)
    (t : Except String (List hassResultType)) : World :=
  { unmarshalPayload := fun _ => p
    newRequest := fun _ _ => .ok ()
    clientDo := fun req => .ok ⟨.ok (if req.method = "GET" then "state" else "services")⟩
    unmarshalResult := fun _ => q
    unmarshalResults := fun _ => t }

/-- A tag push on the tracked repository. -/
def tagPush : webhookPayload :=
  { Ref := "refs/tags/v1.2.3"
    Before := "0000000000000000000000000000000000000000"
    After := "3b18e512dba79e4c8300dd08aeb37f8e728b8dad"
    Repository := ⟨"canastra.online/monorepo"⟩ }

/-- The switch as the backend reports it. -/
def ciSwitch (state : String) : hassResultType :=
  { EntityId := "switch.ci_server", State := state }

end HassCi

namespace HassCi

/-! ## Lemmas on the library models -/

theorem cutPrefix_append (pre rest : String) : cutPrefix (pre ++ rest) pre = (rest, true) := by
  simp [cutPrefix, String.data_append]

theorem cutPrefix_of_not_prefix (s pre : String) (h : ¬ ∃ rest, s = pre ++ rest) :
    cutPrefix s pre = (s, false) := by
  unfold cutPrefix
  split
  · rename_i hp
    exfalso
    apply h
    rw [List.isPrefixOf_iff_prefix] at hp
    obtain ⟨t, ht⟩ := hp
    refine ⟨⟨t⟩, ?_⟩
    apply String.ext
    simp [String.data_append, ht]
  · rfl

theorem jsonMarshal_ok (key value : String) :
    jsonMarshal key value = .ok ("\x7b" ++ jsonString key ++ ":" ++ jsonString value ++ "\x7d") :=
  rfl

theorem jsonError_fst (msg : String) (status : Nat) :
    (jsonError msg status).1 =
      { status := status, headers := [("Content-Type", "application/json")],
        body := "\x7b\"message\":" ++ jsonString msg ++ "\x7d" } := by
  have h : "\x7b" ++ jsonString "message" ++ ":" = "\x7b\"message\":" := by decide
  simp [jsonError, jsonMarshal, h]

theorem jsonError_snd (msg : String) (status : Nat) :
    ∃ line, (jsonError msg status).2 = [Event.log line] := by
  simp [jsonError, jsonMarshal]

end HassCi

namespace HassCi

/-! ## Lemmas on the two operations -/

theorem invocations_append (xs ys : List Event) :
    invocations (xs ++ ys) = invocations xs ++ invocations ys := by
  simp [invocations]

theorem httpRequests_append (xs ys : List Event) :
    httpRequests (xs ++ ys) = httpRequests xs ++ httpRequests ys := by
  simp [httpRequests]

theorem invocations_hassIsOnResult (cfg : Config) (w : World) (e : String) :
    invocations (hassIsOnResult cfg w e).2 = [] := by
  simp only [hassIsOnResult]
  split
  · rfl
  · split
    · rfl
    · split
      · rfl
      · split <;> rfl

theorem invocations_hassTurnOnResult (cfg : Config) (w : World) (e : String) :
    invocations (hassTurnOnResult cfg w e).2 = [] := by
  simp only [hassTurnOnResult, jsonMarshal_ok]
  split
  · rfl
  · split
    · rfl
    · split
      · rfl
      · split <;> rfl

theorem hassIsOn_snd (cfg : Config) (w : World) (e : String) :
    (hassIsOn cfg w e).2 = Event.isOnCall e :: (hassIsOnResult cfg w e).2 := by
  unfold hassIsOn
  repeat' split
  all_goals simp_all

theorem hassTurnOn_snd (cfg : Config) (w : World) (e : String) :
    (hassTurnOn cfg w e).2 = Event.turnOnCall e :: (hassTurnOnResult cfg w e).2 := by
  unfold hassTurnOn
  repeat' split
  all_goals simp_all

theorem invocations_hassIsOn (cfg : Config) (w : World) (e : String) :
    invocations (hassIsOn cfg w e).2 = [Event.isOnCall e] := by
  rw [hassIsOn_snd]
  have h := invocations_hassIsOnResult cfg w e
  simp only [invocations] at h ⊢
  simp [List.filter_cons, h]

theorem invocations_hassTurnOn (cfg : Config) (w : World) (e : String) :
    invocations (hassTurnOn cfg w e).2 = [Event.turnOnCall e] := by
  rw [hassTurnOn_snd]
  have h := invocations_hassTurnOnResult cfg w e
  simp only [invocations] at h ⊢
  simp [List.filter_cons, h]

theorem hassIsOn_fst_of_result (cfg : Config) (w : World) (e : String) (r : hassResultType)
    (h : (hassIsOnResult cfg w e).1 = .ok r) :
    (hassIsOn cfg w e).1 =
      if r.EntityId ≠ e then
        .error ("wrong device ID. Expected " ++ e ++ ", got " ++ r.EntityId)
      else .ok (decide (r.State = "on")) := by
  unfold hassIsOn
  cases hres : hassIsOnResult cfg w e with
  | mk x evs =>
    rw [hres] at h
    simp only at h
    subst h
    by_cases hid : r.EntityId = e <;> simp [hid]

theorem hassTurnOn_fst_of_result (cfg : Config) (w : World) (e : String)
    (rs : List hassResultType) (h : (hassTurnOnResult cfg w e).1 = .ok rs) :
    (hassTurnOn cfg w e).1 = hassTurnOnCheck e rs := by
  unfold hassTurnOn
  cases hres : hassTurnOnResult cfg w e with
  | mk x evs =>
    rw [hres] at h
    simp only at h
    subst h
    rfl

/-- The handler once the payload passed the repository, ref and hash checks. -/
theorem webhookHandler_eligible (cfg : Config) (w : World) (body : String) (p : webhookPayload)
    (hp : w.unmarshalPayload body = .ok p)
    (hrepo : p.Repository.FullName = "canastra.online/monorepo")
    (href : ∃ version, p.Ref = "refs/tags/" ++ version)
    (hafter : p.After ≠ emptyCommitHash) :
    webhookHandler cfg w (.ok body) =
      match (hassIsOn cfg w cfg.hassEntityId).1 with
      | .error err =>
        ((jsonError err 400).1, (hassIsOn cfg w cfg.hassEntityId).2 ++ (jsonError err 400).2)
      | .ok true =>
        (writeHeader 204,
          (hassIsOn cfg w cfg.hassEntityId).2 ++
            [Event.log ("Skipping, isOn: received " ++ fmtPayload p)])
      | .ok false =>
        match (hassTurnOn cfg w cfg.hassEntityId).1 with
        | .error err =>
          ((jsonError err 400).1,
            (hassIsOn cfg w cfg.hassEntityId).2 ++ (hassTurnOn cfg w cfg.hassEntityId).2 ++
              (jsonError err 400).2)
        | .ok () =>
          (writeHeader 204,
            (hassIsOn cfg w cfg.hassEntityId).2 ++ (hassTurnOn cfg w cfg.hassEntityId).2 ++
              [Event.log ("Waking up CI server for " ++ p.Repository.FullName ++ ":" ++
                (cutPrefix p.Ref "refs/tags/").1 ++ "\n")]) := by
  obtain ⟨version, hv⟩ := href
  unfold webhookHandler
  simp only [hp, hrepo, hv, cutPrefix_append, hafter, ne_eq, not_true_eq_false, and_false,
    if_false, Bool.true_eq_false]

end HassCi

namespace HassCi

/-! ## The handler, branch by branch -/

theorem turnOnCall_mem_invocations (e : String) (evs : List Event)
    (h : Event.turnOnCall e ∈ evs) : Event.turnOnCall e ∈ invocations evs := by
  simp only [invocations, List.mem_filter]
  exact ⟨h, trivial⟩

theorem turnOnCall_not_mem_hassIsOn (cfg : Config) (w : World) (e x : String) :
    Event.turnOnCall x ∉ (hassIsOn cfg w e).2 := by
  intro h
  have hm := turnOnCall_mem_invocations x _ h
  rw [invocations_hassIsOn] at hm
  simp at hm

theorem turnOnCall_mem_hassTurnOn (cfg : Config) (w : World) (e x : String)
    (h : Event.turnOnCall x ∈ (hassTurnOn cfg w e).2) : x = e := by
  have hm := turnOnCall_mem_invocations x _ h
  rw [invocations_hassTurnOn] at hm
  simpa using hm

theorem turnOnCall_not_mem_jsonError (msg : String) (status : Nat) (x : String) :
    Event.turnOnCall x ∉ (jsonError msg status).2 := by
  obtain ⟨line, hl⟩ := jsonError_snd msg status
  simp [hl]

theorem webhookHandler_read_error (cfg : Config) (w : World) (err : String) :
    webhookHandler cfg w (.error err) = jsonError err 400 := rfl

theorem webhookHandler_decode_error (cfg : Config) (w : World) (body err : String)
    (hp : w.unmarshalPayload body = .error err) :
    webhookHandler cfg w (.ok body) = jsonError err 400 := by
  unfold webhookHandler
  simp only [hp]

theorem webhookHandler_wrong_repo (cfg : Config) (w : World) (body : String)
    (p : webhookPayload) (hp : w.unmarshalPayload body = .ok p)
    (hrepo : p.Repository.FullName ≠ "canastra.online/monorepo") :
    webhookHandler cfg w (.ok body) =
      (writeHeader 204,
        [Event.log ("Skipping, wrong repo: received " ++ fmtPayload p ++ "\n")]) := by
  unfold webhookHandler
  simp only [hp, hrepo, ne_eq, not_false_eq_true, if_true]

theorem webhookHandler_wrong_ref (cfg : Config) (w : World) (body : String)
    (p : webhookPayload) (hp : w.unmarshalPayload body = .ok p)
    (hrepo : p.Repository.FullName = "canastra.online/monorepo")
    (href : ¬ ∃ version, p.Ref = "refs/tags/" ++ version) :
    webhookHandler cfg w (.ok body) =
      (writeHeader 204,
        [Event.log ("Skipping, wrong ref: received " ++ fmtPayload p ++ "\n")]) := by
  unfold webhookHandler
  simp only [hp, hrepo, cutPrefix_of_not_prefix _ _ href, ne_eq, not_true_eq_false, if_false,
    if_true]

theorem webhookHandler_empty_hashes (cfg : Config) (w : World) (body : String)
    (p : webhookPayload) (hp : w.unmarshalPayload body = .ok p)
    (hrepo : p.Repository.FullName = "canastra.online/monorepo")
    (href : ∃ version, p.Ref = "refs/tags/" ++ version)
    (hbefore : p.Before = emptyCommitHash) (hafter : p.After = emptyCommitHash) :
    webhookHandler cfg w (.ok body) =
      jsonError "Unexpected payload: commit hashes are empty" 400 := by
  obtain ⟨version, hv⟩ := href
  unfold webhookHandler
  simp only [hp, hrepo, hv, cutPrefix_append, hbefore, hafter, ne_eq, not_true_eq_false,
    and_self, if_false, if_true, Bool.true_eq_false]

theorem webhookHandler_tag_removed (cfg : Config) (w : World) (body : String)
    (p : webhookPayload) (hp : w.unmarshalPayload body = .ok p)
    (hrepo : p.Repository.FullName = "canastra.online/monorepo")
    (href : ∃ version, p.Ref = "refs/tags/" ++ version)
    (hbefore : p.Before ≠ emptyCommitHash) (hafter : p.After = emptyCommitHash) :
    webhookHandler cfg w (.ok body) =
      (writeHeader 204,
        [Event.log ("Skipping, tag was removed: received " ++ fmtPayload p)]) := by
  obtain ⟨version, hv⟩ := href
  unfold webhookHandler
  simp only [hp, hrepo, hv, cutPrefix_append, hbefore, hafter, ne_eq, not_true_eq_false,
    false_and, if_false, if_true, Bool.true_eq_false]

/-- Every run of the handler ends in one of three ways: a bare 204 with `hassTurnOn`
never entered, a bare 204 after a `hassTurnOn` that returned no error, or `jsonError`
with status 400. -/
theorem webhookHandler_cases (cfg : Config) (w : World) (reqBody : Except String String) :
    ((webhookHandler cfg w reqBody).1 = writeHeader 204 ∧
        ∀ x, Event.turnOnCall x ∉ (webhookHandler cfg w reqBody).2) ∨
    ((webhookHandler cfg w reqBody).1 = writeHeader 204 ∧
        (hassTurnOn cfg w cfg.hassEntityId).1 = .ok () ∧
        ∀ x, Event.turnOnCall x ∈ (webhookHandler cfg w reqBody).2 → x = cfg.hassEntityId) ∨
    (∃ err, (webhookHandler cfg w reqBody).1 = (jsonError err 400).1) := by
  cases reqBody with
  | error err => exact Or.inr (Or.inr ⟨err, rfl⟩)
  | ok body =>
    cases hp : w.unmarshalPayload body with
    | error err =>
      exact Or.inr (Or.inr ⟨err, by rw [webhookHandler_decode_error cfg w body err hp]⟩)
    | ok p =>
      by_cases hrepo : p.Repository.FullName = "canastra.online/monorepo"
      · by_cases href : ∃ version, p.Ref = "refs/tags/" ++ version
        · by_cases hafter : p.After = emptyCommitHash
          · by_cases hbefore : p.Before = emptyCommitHash
            · refine Or.inr (Or.inr ⟨"Unexpected payload: commit hashes are empty", ?_⟩)
              rw [webhookHandler_empty_hashes cfg w body p hp hrepo href hbefore hafter]
            · left
              rw [webhookHandler_tag_removed cfg w body p hp hrepo href hbefore hafter]
              exact ⟨rfl, by simp⟩
          · rw [webhookHandler_eligible cfg w body p hp hrepo href hafter]
            cases h1 : (hassIsOn cfg w cfg.hassEntityId).1 with
            | error err => exact Or.inr (Or.inr ⟨err, rfl⟩)
            | ok b =>
              cases b with
              | true =>
                left
                refine ⟨rfl, ?_⟩
                intro x hx
                simp only [List.mem_append, List.mem_singleton] at hx
                rcases hx with hx | hx
                · exact turnOnCall_not_mem_hassIsOn cfg w _ x hx
                · cases hx
              | false =>
                cases h2 : (hassTurnOn cfg w cfg.hassEntityId).1 with
                | error err => exact Or.inr (Or.inr ⟨err, rfl⟩)
                | ok u =>
                  right
                  left
                  refine ⟨rfl, rfl, ?_⟩
                  intro x hx
                  simp only [List.mem_append, List.mem_singleton] at hx
                  rcases hx with (hx | hx) | hx
                  · exact absurd hx (turnOnCall_not_mem_hassIsOn cfg w _ x)
                  · exact turnOnCall_mem_hassTurnOn cfg w _ x hx
                  · cases hx
        · left
          rw [webhookHandler_wrong_ref cfg w body p hp hrepo href]
          exact ⟨rfl, by simp⟩
      · left
        rw [webhookHandler_wrong_repo cfg w body p hp hrepo]
        exact ⟨rfl, by simp⟩

theorem hassTurnOnCheck_ok_iff (e : String) (rs : List hassResultType) :
    hassTurnOnCheck e rs = .ok () ↔ ∃ x, rs = [x] ∧ x.EntityId = e ∧ x.State = "on" := by
  unfold hassTurnOnCheck
  match rs with
  | [] => simp
  | [x] =>
    by_cases h1 : x.EntityId = e <;> by_cases h2 : x.State = "on" <;> simp [h1, h2]
  | _ :: _ :: _ => simp

/-! ## The handler's filters -/

/-- C3: a parsed payload whose `repository.full_name` is not exactly
`canastra.online/monorepo` is answered 204 with no header and no body, whatever its
ref and hashes are, and neither operation is entered nor any HTTP request sent. -/
theorem webhook_wrong_repo_skips (cfg : Config) (w : World) (body : String) (p : webhookPayload)
    (hp : w.unmarshalPayload body = .ok p)
    (hrepo : p.Repository.FullName ≠ "canastra.online/monorepo") :
    (webhookHandler cfg w (.ok body)).1 = { status := 204, headers := [], body := "" } ∧
    invocations (webhookHandler cfg w (.ok body)).2 = [] ∧
    httpRequests (webhookHandler cfg w (.ok body)).2 = [] := by
  unfold webhookHandler
  simp only [hp, hrepo, ne_eq, not_false_eq_true, if_true]
  exact ⟨rfl, rfl, rfl⟩

theorem webhook_wrong_repo_skips_witness :
    (webhookHandler demoConfig
        (demoWorld
          (.ok { Ref := "refs/tags/v1.2.3", Before := emptyCommitHash, After := emptyCommitHash,
                 Repository := ⟨"canastra.online/monorepo2"⟩ })
          (.ok (ciSwitch "off")) (.ok [ciSwitch "on"]))
        (.ok "")).1.status = 204 :=
  congrArg Response.status
    (webhook_wrong_repo_skips demoConfig _ "" _ rfl (by decide)).1

/-- C4: a parsed payload of the tracked repository whose `ref` does not begin with
`refs/tags/` is answered 204 with no header and no body, whatever its hashes are, and
neither operation is entered nor any HTTP request sent. -/
theorem webhook_wrong_ref_skips (cfg : Config) (w : World) (body : String) (p : webhookPayload)
    (hp : w.unmarshalPayload body = .ok p)
    (hrepo : p.Repository.FullName = "canastra.online/monorepo")
    (href : ¬ ∃ version, p.Ref = "refs/tags/" ++ version) :
    (webhookHandler cfg w (.ok body)).1 = { status := 204, headers := [], body := "" } ∧
    invocations (webhookHandler cfg w (.ok body)).2 = [] ∧
    httpRequests (webhookHandler cfg w (.ok body)).2 = [] := by
  unfold webhookHandler
  simp only [hp, hrepo, cutPrefix_of_not_prefix _ _ href, ne_eq, not_true_eq_false, if_false,
    if_true]
  exact ⟨rfl, rfl, rfl⟩

/-- The ref `refs/heads/main` does not begin with `refs/tags/`. -/
theorem heads_main_not_tag : ¬ ∃ version, "refs/heads/main" = "refs/tags/" ++ version := by
  rintro ⟨v, hv⟩
  have h := congrArg (fun s => s.data.take 10) hv
  simp [String.data_append] at h

theorem webhook_wrong_ref_skips_witness :
    (webhookHandler demoConfig
        (demoWorld
          (.ok { Ref := "refs/heads/main", Before := emptyCommitHash, After := emptyCommitHash,
                 Repository := ⟨"canastra.online/monorepo"⟩ })
          (.ok (ciSwitch "off")) (.ok [ciSwitch "on"]))
        (.ok "")).1.status = 204 :=
  congrArg Response.status
    (webhook_wrong_ref_skips demoConfig _ "" _ rfl rfl heads_main_not_tag).1

end HassCi

namespace HassCi

/-- C5: a payload of the tracked repository with a tag ref whose `before` and `after`
are both the all-zero hash is answered 400 with the JSON object whose only member is
`message`, bound to `Unexpected payload: commit hashes are empty`; neither operation is
entered and no HTTP request is sent. -/
theorem webhook_empty_hashes_rejected (cfg : Config) (w : World) (body : String)
    (p : webhookPayload)
    (hp : w.unmarshalPayload body = .ok p)
    (hrepo : p.Repository.FullName = "canastra.online/monorepo")
    (href : ∃ version, p.Ref = "refs/tags/" ++ version)
    (hbefore : p.Before = "0000000000000000000000000000000000000000")
    (hafter : p.After = "0000000000000000000000000000000000000000") :
    (webhookHandler cfg w (.ok body)).1.status = 400 ∧
    jsonMarshal "message" "Unexpected payload: commit hashes are empty" =
      .ok (webhookHandler cfg w (.ok body)).1.body ∧
    (webhookHandler cfg w (.ok body)).1.body =
      "\x7b\"message\":\"Unexpected payload: commit hashes are empty\"\x7d" ∧
    invocations (webhookHandler cfg w (.ok body)).2 = [] ∧
    httpRequests (webhookHandler cfg w (.ok body)).2 = [] := by
  obtain ⟨version, hv⟩ := href
  have hb : p.Before = emptyCommitHash := hbefore
  have ha : p.After = emptyCommitHash := hafter
  unfold webhookHandler
  simp only [hp, hrepo, hv, cutPrefix_append, hb, ha, ne_eq, not_true_eq_false, and_self,
    if_false, if_true, Bool.true_eq_false]
  exact ⟨rfl, congrArg Except.ok (by decide), by decide, rfl, rfl⟩

theorem webhook_empty_hashes_rejected_witness :
    (webhookHandler demoConfig
        (demoWorld
          (.ok { Ref := "refs/tags/v1.2.3", Before := emptyCommitHash, After := emptyCommitHash,
                 Repository := ⟨"canastra.online/monorepo"⟩ })
          (.ok (ciSwitch "off")) (.ok [ciSwitch "on"]))
        (.ok "")).1.status = 400 :=
  (webhook_empty_hashes_rejected demoConfig _ "" _ rfl rfl ⟨"v1.2.3", by decide⟩ rfl rfl).1

/-- C6: a payload of the tracked repository with a tag ref whose `after` is the
all-zero hash and whose `before` is not (a tag deletion) is answered 204 with no
header and no body; neither operation is entered and no HTTP request is sent. -/
theorem webhook_tag_deletion_skips (cfg : Config) (w : World) (body : String)
    (p : webhookPayload)
    (hp : w.unmarshalPayload body = .ok p)
    (hrepo : p.Repository.FullName = "canastra.online/monorepo")
    (href : ∃ version, p.Ref = "refs/tags/" ++ version)
    (hbefore : p.Before ≠ emptyCommitHash)
    (hafter : p.After = emptyCommitHash) :
    (webhookHandler cfg w (.ok body)).1 = { status := 204, headers := [], body := "" } ∧
    invocations (webhookHandler cfg w (.ok body)).2 = [] ∧
    httpRequests (webhookHandler cfg w (.ok body)).2 = [] := by
  obtain ⟨version, hv⟩ := href
  unfold webhookHandler
  simp only [hp, hrepo, hv, cutPrefix_append, hbefore, hafter, ne_eq, not_true_eq_false,
    false_and, if_false, if_true, Bool.true_eq_false]
  exact ⟨rfl, rfl, rfl⟩

theorem webhook_tag_deletion_skips_witness :
    (webhookHandler demoConfig
        (demoWorld
          (.ok { Ref := "refs/tags/v1.2.3",
                 Before := "3b18e512dba79e4c8300dd08aeb37f8e728b8dad",
                 After := emptyCommitHash,
                 Repository := ⟨"canastra.online/monorepo"⟩ })
          (.ok (ciSwitch "off")) (.ok [ciSwitch "on"]))
        (.ok "")).1.status = 204 :=
  congrArg Response.status
    (webhook_tag_deletion_skips demoConfig _ "" _ rfl rfl ⟨"v1.2.3", by decide⟩
      (by decide) rfl).1

/-! ## The handler and the backend -/

/-- C2: for a payload of the tracked repository with a tag ref and an `after` that
is not the all-zero hash, when the state query decodes a record of the configured
entity whose state is `on`, the handler answers 204 with no header and no body, it
entered `hassIsOn` once and `hassTurnOn` not at all. -/
theorem webhook_already_on_skips (cfg : Config) (w : World) (body : String)
    (p : webhookPayload) (r : hassResultType)
    (hp : w.unmarshalPayload body = .ok p)
    (hrepo : p.Repository.FullName = "canastra.online/monorepo")
    (href : ∃ version, p.Ref = "refs/tags/" ++ version)
    (hafter : p.After ≠ emptyCommitHash)
    (hq : (hassIsOnResult cfg w cfg.hassEntityId).1 = .ok r)
    (hid : r.EntityId = cfg.hassEntityId)
    (hstate : r.State = "on") :
    (webhookHandler cfg w (.ok body)).1 = { status := 204, headers := [], body := "" } ∧
    invocations (webhookHandler cfg w (.ok body)).2 = [Event.isOnCall cfg.hassEntityId] ∧
    ∀ e, Event.turnOnCall e ∉ (webhookHandler cfg w (.ok body)).2 := by
  have hon : (hassIsOn cfg w cfg.hassEntityId).1 = .ok true := by
    rw [hassIsOn_fst_of_result cfg w _ r hq]
    simp [hid, hstate]
  have hinv : invocations (webhookHandler cfg w (.ok body)).2 =
      [Event.isOnCall cfg.hassEntityId] := by
    rw [webhookHandler_eligible cfg w body p hp hrepo href hafter, hon]
    simp only [invocations_append, invocations_hassIsOn]
    rfl
  refine ⟨?_, hinv, ?_⟩
  · rw [webhookHandler_eligible cfg w body p hp hrepo href hafter, hon]
    rfl
  · intro e he
    have hmem : Event.turnOnCall e ∈ invocations (webhookHandler cfg w (.ok body)).2 := by
      simp only [invocations, List.mem_filter]
      exact ⟨he, trivial⟩
    rw [hinv] at hmem
    simp at hmem

theorem webhook_already_on_skips_witness :
    (webhookHandler demoConfig
        (demoWorld (.ok tagPush) (.ok (ciSwitch "on")) (.ok [ciSwitch "on"]))
        (.ok "")).1.status = 204 :=
  congrArg Response.status
    (webhook_already_on_skips demoConfig
      (demoWorld (.ok tagPush) (.ok (ciSwitch "on")) (.ok [ciSwitch "on"])) "" tagPush (ciSwitch "on") rfl rfl
      ⟨"v1.2.3", by decide⟩ (by decide) rfl rfl rfl).1

/-- C1: for a payload of the tracked repository with a tag ref and an `after` that
is not the all-zero hash (any `before`), when the state query decodes a record of the
configured entity whose state is anything but `on`, the handler enters `hassIsOn`
once and then `hassTurnOn` once, both with the configured entity identifier, and
nothing else; and when `hassTurnOn` returns no error the answer is 204 with no header
and no body. -/
theorem webhook_off_turns_on_once (cfg : Config) (w : World) (body : String)
    (p : webhookPayload) (r : hassResultType)
    (hp : w.unmarshalPayload body = .ok p)
    (hrepo : p.Repository.FullName = "canastra.online/monorepo")
    (href : ∃ version, p.Ref = "refs/tags/" ++ version)
    (hafter : p.After ≠ emptyCommitHash)
    (hq : (hassIsOnResult cfg w cfg.hassEntityId).1 = .ok r)
    (hid : r.EntityId = cfg.hassEntityId)
    (hstate : r.State ≠ "on") :
    invocations (webhookHandler cfg w (.ok body)).2 =
      [Event.isOnCall cfg.hassEntityId, Event.turnOnCall cfg.hassEntityId] ∧
    ((hassTurnOn cfg w cfg.hassEntityId).1 = .ok () →
      (webhookHandler cfg w (.ok body)).1 = { status := 204, headers := [], body := "" }) := by
  have hoff : (hassIsOn cfg w cfg.hassEntityId).1 = .ok false := by
    rw [hassIsOn_fst_of_result cfg w _ r hq]
    simp [hid, hstate]
  rw [webhookHandler_eligible cfg w body p hp hrepo href hafter, hoff]
  constructor
  · cases hres : (hassTurnOn cfg w cfg.hassEntityId).1 with
    | error err =>
      simp only [invocations_append, invocations_hassIsOn, invocations_hassTurnOn]
      rfl
    | ok u =>
      simp only [invocations_append, invocations_hassIsOn, invocations_hassTurnOn]
      rfl
  · intro hok
    rw [hok]
    rfl

theorem webhook_off_turns_on_once_witness :
    invocations (webhookHandler demoConfig
        (demoWorld (.ok tagPush) (.ok (ciSwitch "off")) (.ok [ciSwitch "on"]))
        (.ok "")).2 = [Event.isOnCall "switch.ci_server", Event.turnOnCall "switch.ci_server"] ∧
    (webhookHandler demoConfig
        (demoWorld (.ok tagPush) (.ok (ciSwitch "off")) (.ok [ciSwitch "on"]))
        (.ok "")).1 = { status := 204, headers := [], body := "" } :=
  ⟨(webhook_off_turns_on_once demoConfig
      (demoWorld (.ok tagPush) (.ok (ciSwitch "off")) (.ok [ciSwitch "on"])) "" tagPush (ciSwitch "off") rfl rfl
      ⟨"v1.2.3", by decide⟩ (by decide) rfl rfl (by decide)).1,
   (webhook_off_turns_on_once demoConfig
      (demoWorld (.ok tagPush) (.ok (ciSwitch "off")) (.ok [ciSwitch "on"])) "" tagPush (ciSwitch "off") rfl rfl
      ⟨"v1.2.3", by decide⟩ (by decide) rfl rfl (by decide)).2 rfl⟩

end HassCi

namespace HassCi

/-- C8: for a payload past the repository, ref and hash checks, when the state query
decodes a record whose `entity_id` differs from the configured identifier, whatever
its state, `hassIsOn` returns the wrong-device error, the handler answers 400 with
`application/json` and the object binding `message` to that error's text, and
`hassTurnOn` is not entered. -/
theorem webhook_wrong_device_rejected (cfg : Config) (w : World) (body : String)
    (p : webhookPayload) (r : hassResultType)
    (hp : w.unmarshalPayload body = .ok p)
    (hrepo : p.Repository.FullName = "canastra.online/monorepo")
    (href : ∃ version, p.Ref = "refs/tags/" ++ version)
    (hafter : p.After ≠ emptyCommitHash)
    (hq : (hassIsOnResult cfg w cfg.hassEntityId).1 = .ok r)
    (hid : r.EntityId ≠ cfg.hassEntityId) :
    (hassIsOn cfg w cfg.hassEntityId).1 =
      .error ("wrong device ID. Expected " ++ cfg.hassEntityId ++ ", got " ++ r.EntityId) ∧
    (webhookHandler cfg w (.ok body)).1 =
      { status := 400, headers := [("Content-Type", "application/json")],
        body := "\x7b\"message\":" ++
          jsonString ("wrong device ID. Expected " ++ cfg.hassEntityId ++ ", got " ++
            r.EntityId) ++ "\x7d" } ∧
    invocations (webhookHandler cfg w (.ok body)).2 = [Event.isOnCall cfg.hassEntityId] ∧
    ∀ e, Event.turnOnCall e ∉ (webhookHandler cfg w (.ok body)).2 := by
  have herr : (hassIsOn cfg w cfg.hassEntityId).1 =
      .error ("wrong device ID. Expected " ++ cfg.hassEntityId ++ ", got " ++ r.EntityId) := by
    rw [hassIsOn_fst_of_result cfg w _ r hq]
    simp [hid]
  rw [webhookHandler_eligible cfg w body p hp hrepo href hafter, herr]
  refine ⟨rfl, jsonError_fst _ 400, ?_, ?_⟩
  · simp only [invocations_append, invocations_hassIsOn]
    rfl
  · intro e he
    simp only [List.mem_append] at he
    rcases he with he | he
    · exact turnOnCall_not_mem_hassIsOn cfg w _ e he
    · exact turnOnCall_not_mem_jsonError _ _ e he

theorem webhook_wrong_device_rejected_witness :
    (webhookHandler demoConfig
        (demoWorld (.ok tagPush) (.ok { EntityId := "switch.garage", State := "on" })
          (.ok [ciSwitch "on"]))
        (.ok "")).1.status = 400 :=
  congrArg Response.status
    (webhook_wrong_device_rejected demoConfig
      (demoWorld (.ok tagPush) (.ok { EntityId := "switch.garage", State := "on" })
        (.ok [ciSwitch "on"]))
      "" tagPush { EntityId := "switch.garage", State := "on" } rfl rfl
      ⟨"v1.2.3", by decide⟩ (by decide) rfl (by decide)).2.1

/-- C7: when the turn-on command decodes the array `rs`, `hassTurnOn e` returns no
error exactly when `rs` is one record whose `entity_id` is `e` and whose state is
`on`, and returns an error in every other case; and when the handler reached
`hassTurnOn` and it returned the error `err`, the answer is 400 with
`application/json` and the object binding `message` to `err`. -/
theorem hassTurnOn_ok_iff_single_on (cfg : Config) (w : World) (e : String)
    (rs : List hassResultType)
    (hrs : (hassTurnOnResult cfg w e).1 = .ok rs) :
    ((hassTurnOn cfg w e).1 = .ok () ↔ ∃ x, rs = [x] ∧ x.EntityId = e ∧ x.State = "on") ∧
    ((¬ ∃ x, rs = [x] ∧ x.EntityId = e ∧ x.State = "on") →
      ∃ err, (hassTurnOn cfg w e).1 = .error err) ∧
    (∀ (body : String) (p : webhookPayload) (err : String),
      w.unmarshalPayload body = .ok p →
      p.Repository.FullName = "canastra.online/monorepo" →
      (∃ version, p.Ref = "refs/tags/" ++ version) →
      p.After ≠ emptyCommitHash →
      (hassIsOn cfg w cfg.hassEntityId).1 = .ok false →
      (hassTurnOn cfg w cfg.hassEntityId).1 = .error err →
      (webhookHandler cfg w (.ok body)).1 =
        { status := 400, headers := [("Content-Type", "application/json")],
          body := "\x7b\"message\":" ++ jsonString err ++ "\x7d" }) := by
  have hiff : (hassTurnOn cfg w e).1 = .ok () ↔
      ∃ x, rs = [x] ∧ x.EntityId = e ∧ x.State = "on" := by
    rw [hassTurnOn_fst_of_result cfg w e rs hrs]
    exact hassTurnOnCheck_ok_iff e rs
  refine ⟨hiff, ?_, ?_⟩
  · intro hno
    cases hres : (hassTurnOn cfg w e).1 with
    | error err => exact ⟨err, rfl⟩
    | ok u => exact absurd (hiff.mp hres) hno
  · intro body p err hp hrepo href hafter hoff hfail
    rw [webhookHandler_eligible cfg w body p hp hrepo href hafter, hoff, hfail]
    exact jsonError_fst err 400

theorem hassTurnOn_ok_iff_single_on_witness :
    (webhookHandler demoConfig
        (demoWorld (.ok tagPush) (.ok (ciSwitch "off")) (.ok [ciSwitch "off"]))
        (.ok "")).1 =
      { status := 400, headers := [("Content-Type", "application/json")],
        body := "\x7b\"message\":" ++
          jsonString "expected result for switch.ci_server: on, got off" ++ "\x7d" } :=
  (hassTurnOn_ok_iff_single_on demoConfig
    (demoWorld (.ok tagPush) (.ok (ciSwitch "off")) (.ok [ciSwitch "off"]))
    "switch.ci_server" [ciSwitch "off"] rfl).2.2 "" tagPush
    "expected result for switch.ci_server: on, got off" rfl rfl ⟨"v1.2.3", by decide⟩
    (by decide) rfl rfl

/-! ## Error responses -/

/-- C9: a request body that `json.Unmarshal` rejects with the error `err` is answered
400 with `Content-Type: application/json` and the object binding `message` to `err`;
neither operation is entered and no HTTP request is sent; and `jsonError` with status
400 writes that object with status 400 for every message, never the 500 fallback. -/
theorem webhook_malformed_body_rejected (cfg : Config) (w : World) (body err : String)
    (hp : w.unmarshalPayload body = .error err) :
    (webhookHandler cfg w (.ok body)).1 =
      { status := 400, headers := [("Content-Type", "application/json")],
        body := "\x7b\"message\":" ++ jsonString err ++ "\x7d" } ∧
    jsonMarshal "message" err = .ok (webhookHandler cfg w (.ok body)).1.body ∧
    invocations (webhookHandler cfg w (.ok body)).2 = [] ∧
    httpRequests (webhookHandler cfg w (.ok body)).2 = [] ∧
    ∀ msg : String, (jsonError msg 400).1 =
      { status := 400, headers := [("Content-Type", "application/json")],
        body := "\x7b\"message\":" ++ jsonString msg ++ "\x7d" } := by
  rw [webhookHandler_decode_error cfg w body err hp]
  exact ⟨jsonError_fst err 400, rfl, rfl, rfl, fun msg => jsonError_fst msg 400⟩

theorem webhook_malformed_body_rejected_witness :
    (webhookHandler demoConfig
        (demoWorld (.error "unexpected end of JSON input") (.ok (ciSwitch "off"))
          (.ok [ciSwitch "on"]))
        (.ok "\x7b\"ref\":")).1 =
      { status := 400, headers := [("Content-Type", "application/json")],
        body := "\x7b\"message\":\"unexpected end of JSON input\"\x7d" } :=
  ((webhook_malformed_body_rejected demoConfig
    (demoWorld (.error "unexpected end of JSON input") (.ok (ciSwitch "off"))
      (.ok [ciSwitch "on"]))
    "\x7b\"ref\":" "unexpected end of JSON input" rfl).1).trans (by decide)

/-- C10: whatever the request body and whatever the library and the backend answer,
the handler's status is 204 or 400; a 204 answer has an empty body; a 400 answer has
as body the object binding `message` to some text; and a 204 answer whose run entered
`hassTurnOn` is one where `hassTurnOn` returned no error. -/
theorem webhook_status_204_or_400 (cfg : Config) (w : World) (reqBody : Except String String) :
    ((webhookHandler cfg w reqBody).1.status = 204 ∨
      (webhookHandler cfg w reqBody).1.status = 400) ∧
    ((webhookHandler cfg w reqBody).1.status = 204 →
      (webhookHandler cfg w reqBody).1.body = "") ∧
    ((webhookHandler cfg w reqBody).1.status = 400 →
      ∃ msg, jsonMarshal "message" msg = .ok (webhookHandler cfg w reqBody).1.body ∧
        (webhookHandler cfg w reqBody).1.body =
          "\x7b\"message\":" ++ jsonString msg ++ "\x7d") ∧
    (∀ e, (webhookHandler cfg w reqBody).1.status = 204 →
      Event.turnOnCall e ∈ (webhookHandler cfg w reqBody).2 →
      (hassTurnOn cfg w e).1 = .ok ()) := by
  rcases webhookHandler_cases cfg w reqBody with ⟨hr, hno⟩ | ⟨hr, hok, hall⟩ | ⟨err, hr⟩
  · rw [hr]
    refine ⟨Or.inl rfl, fun _ => rfl, ?_, ?_⟩
    · intro h
      simp [writeHeader] at h
    · intro e _ he
      exact absurd he (hno e)
  · rw [hr]
    refine ⟨Or.inl rfl, fun _ => rfl, ?_, ?_⟩
    · intro h
      simp [writeHeader] at h
    · intro e _ he
      rw [hall e he]
      exact hok
  · rw [hr, jsonError_fst err 400]
    refine ⟨Or.inr rfl, ?_, ?_, ?_⟩
    · intro h
      simp at h
    · intro _
      refine ⟨err, ?_, rfl⟩
      have hb := congrArg Response.body (jsonError_fst err 400)
      simp only at hb
      rw [← hb]
      rfl
    · intro e h
      simp at h

end HassCi
